import Mathlib

/-!
Shallow embedding of the ses-cloudwatch-logging Lambda (src/handler.js) and
verification of the specification's claims about it.

The handler's pure data shaping (processSESEvent) is embedded directly as Lean
functions.  The stateful AWS calls (CreateLogGroup, CreateLogStream,
DescribeLogStreams, PutLogEvents) are embedded by passing the store-reported
outcome of each call as an explicit argument and returning the trace of calls
the client would issue, so that the control flow of the JavaScript is mirrored
exactly while the external store stays a parameter.
-/

namespace SESLog

/-- JavaScript `x || d` for an optional string property: `undefined`/`null`
and the empty string are falsy, any other string is returned unchanged. -/
def jsOrS : Option String → String → String
  | none, d => d
  | some s, d => if s = "" then d else s

/-- JavaScript `x || d` for an optional numeric property: `undefined`/`null`
and `0` are falsy. -/
def jsOrI : Option Int → Int → Int
  | none, d => d
  | some n, d => if n = 0 then d else n

/-- JavaScript `x || d` for an optional list property (`undefined` is the only
falsy case that arises: an array object is always truthy). -/
def jsOrL : Option (List String) → List String → List String
  | none, d => d
  | some l, _ => l

/-- JavaScript truthiness of an optional string value. -/
def jsTruthyS : Option String → Bool
  | none => false
  | some s => s ≠ ""

/-- `mail.commonHeaders` section of an SES notification. -/
structure CommonHeaders where
  subject : Option String
  deriving Repr, DecidableEq

/-- `mail` section of an SES notification. -/
structure Mail where
  messageId : Option String
  destination : Option (List String)
  source : Option String
  commonHeaders : Option CommonHeaders
  deriving Repr, DecidableEq

/-- `bounce` section of an SES notification. -/
structure BounceInfo where
  bounceType : Option String
  bounceSubType : Option String
  bouncedRecipients : Option (List String)
  deriving Repr, DecidableEq

/-- `complaint` section of an SES notification. -/
structure ComplaintInfo where
  complaintFeedbackType : Option String
  complainedRecipients : Option (List String)
  deriving Repr, DecidableEq

/-- `delivery` section of an SES notification. -/
structure DeliveryInfo where
  processingTimeMillis : Option Int
  smtpResponse : Option String
  deriving Repr, DecidableEq

/-- `reject` section of an SES notification. -/
structure RejectInfo where
  reason : Option String
  deriving Repr, DecidableEq

/-- `failure` section of an SES notification (rendering failure). -/
structure FailureInfo where
  errorMessage : Option String
  templateName : Option String
  deriving Repr, DecidableEq

/-- The decoded SNS message (RawNotification): every property the handler
reads, each optional because the payload is free-form JSON. -/
structure SnsMessage where
  eventType : Option String
  notificationType : Option String
  mail : Option Mail
  bounce : Option BounceInfo
  complaint : Option ComplaintInfo
  delivery : Option DeliveryInfo
  reject : Option RejectInfo
  failure : Option FailureInfo
  deriving Repr, DecidableEq

/-- The SnsMessage with no property present. -/
def emptyMsg : SnsMessage :=
  { eventType := none, notificationType := none, mail := none, bounce := none,
    complaint := none, delivery := none, reject := none, failure := none }

/-- The normalized output record (ProcessedEvent).  Base fields are always
present; variant-specific extra fields are `none` exactly when the JavaScript
object lacks the property. -/
structure ProcessedEvent where
  timestamp : String
  messageId : String
  eventType : String
  recipient : String
  source : String
  subject : String
  rawEvent : SnsMessage
  bounceType : Option String := none
  bounceSubType : Option String := none
  bouncedRecipients : Option (List String) := none
  complaintFeedbackType : Option String := none
  complainedRecipients : Option (List String) := none
  processingTimeMillis : Option Int := none
  smtpResponse : Option String := none
  reason : Option String := none
  errorMessage : Option String := none
  templateName : Option String := none
  deriving Repr, DecidableEq

/-- The object literal built at the top of `processSESEvent` (handler.js
lines 168-176); `now` stands for `new Date().toISOString()`. -/
def baseRecord (now : String) (snsMessage : SnsMessage) : ProcessedEvent :=
  { timestamp := now,
    messageId := jsOrS (snsMessage.mail.bind (fun m => m.messageId)) "unknown",
    eventType := jsOrS snsMessage.eventType "unknown",
    recipient := jsOrS ((snsMessage.mail.bind (fun m => m.destination)).bind
      (fun d => d.head?)) "unknown",
    source := jsOrS (snsMessage.mail.bind (fun m => m.source)) "unknown",
    subject := jsOrS ((snsMessage.mail.bind (fun m => m.commonHeaders)).bind
      (fun c => c.subject)) "unknown",
    rawEvent := snsMessage }

/-- Does the event-kind discriminator carry one of the two case labels of a
switch branch (JavaScript `switch` dispatches by strict string equality)? -/
def isKind (e : Option String) (cap low : String) : Prop :=
  e = some cap ∨ e = some low

instance (e : Option String) (cap low : String) : Decidable (isKind e cap low) :=
  inferInstanceAs (Decidable (_ ∨ _))

/-- The `switch (snsMessage.eventType)` block of `processSESEvent`
(handler.js lines 179-221): mutates the processed event with
variant-specific fields; unmatched kinds fall through unchanged.  The switch
is embedded as the equivalent chain of strict string comparisons. -/
def addEventDetails (snsMessage : SnsMessage) (pe : ProcessedEvent) : ProcessedEvent :=
  if isKind snsMessage.eventType "Bounce" "bounce" then
    let bounce := snsMessage.bounce.getD
      { bounceType := none, bounceSubType := none, bouncedRecipients := none }
    { pe with bounceType := some (jsOrS bounce.bounceType "unknown"),
              bounceSubType := some (jsOrS bounce.bounceSubType "unknown"),
              bouncedRecipients := some (jsOrL bounce.bouncedRecipients []) }
  else if isKind snsMessage.eventType "Complaint" "complaint" then
    let complaint := snsMessage.complaint.getD
      { complaintFeedbackType := none, complainedRecipients := none }
    { pe with complaintFeedbackType := some (jsOrS complaint.complaintFeedbackType "unknown"),
              complainedRecipients := some (jsOrL complaint.complainedRecipients []) }
  else if isKind snsMessage.eventType "Delivery" "delivery" then
    let delivery := snsMessage.delivery.getD
      { processingTimeMillis := none, smtpResponse := none }
    { pe with processingTimeMillis := some (jsOrI delivery.processingTimeMillis 0),
              smtpResponse := some (jsOrS delivery.smtpResponse "unknown") }
  else if isKind snsMessage.eventType "Send" "send" then pe
  else if isKind snsMessage.eventType "Reject" "reject" then
    let reject := snsMessage.reject.getD { reason := none }
    { pe with reason := some (jsOrS reject.reason "unknown") }
  else if isKind snsMessage.eventType "Rendering Failure" "renderingFailure" then
    let renderingFailure := snsMessage.failure.getD
      { errorMessage := none, templateName := none }
    { pe with errorMessage := some (jsOrS renderingFailure.errorMessage "unknown"),
              templateName := some (jsOrS renderingFailure.templateName "unknown") }
  else pe

/-- `processSESEvent` (handler.js lines 167-224): build the base record, then
apply the event-kind switch. -/
def processSESEvent (now : String) (snsMessage : SnsMessage) : ProcessedEvent :=
  addEventDetails snsMessage (baseRecord now snsMessage)

/-- The fixed stream name constant (handler.js line 24). -/
def LOG_STREAM_NAME : String := "ses-email-events-stream"

/-- Outcome that the store reports for one create-group or create-stream
call: success, or an error discriminated by `error.name` as the handler's
catch blocks do. -/
inductive CreateResult where
  | created
  | resourceAlreadyExists
  | accessDenied
  | otherError (msg : String)
  deriving Repr, DecidableEq

/-- One `try { create ... } catch (error) { ... }` block of
`ensureLogGroupExists`: benign outcomes (success,
ResourceAlreadyExistsException, AccessDeniedException) are swallowed; any
other error is re-thrown. -/
def handleCreateResult (res : CreateResult) : Except String Unit :=
  match res with
  | .created => .ok ()
  | .resourceAlreadyExists => .ok ()
  | .accessDenied => .ok ()
  | .otherError msg => .error msg

/-- `ensureLogGroupExists` (handler.js lines 29-76), with the store-reported
outcome of each of the two create calls passed in: the create-group block
runs first and the create-stream block is only reached when the first block
did not throw. -/
def ensureLogGroupExists (groupRes streamRes : CreateResult) : Except String Unit :=
  (handleCreateResult groupRes).bind (fun _ => handleCreateResult streamRes)

/-- One element of `response.logStreams` in a DescribeLogStreams response. -/
structure LogStream where
  logStreamName : String
  uploadSequenceToken : Option String
  deriving Repr, DecidableEq

/-- Outcome of the DescribeLogStreams call: a response whose `logStreams`
property may be missing, or a thrown error. -/
inductive DescribeResult where
  | ok (logStreams : Option (List LogStream))
  | err (msg : String)
  deriving Repr, DecidableEq

/-- `getSequenceToken` (handler.js lines 81-98): take the first stream of the
response and return its `uploadSequenceToken`; return null when the response
has no streams or the call threw. -/
def getSequenceToken : DescribeResult → Option String
  | .ok (some (s :: _)) => s.uploadSequenceToken
  | .ok (some []) => none
  | .ok none => none
  | .err _ => none

/-- Does the character list `p` occur at the start of `s`? -/
def startsChars : List Char → List Char → Bool
  | [], _ => true
  | _ :: _, [] => false
  | p :: ps, c :: cs => p == c && startsChars ps cs

/-- Modelled from the spec (external log store, section 6): a successful
describe-streams call returns the streams whose names start with the
requested name as a prefix.  The store's stream list is the parameter. -/
def describeLogStreams (storeStreams : List LogStream) (nameStart : String) :
    DescribeResult :=
  .ok (some (storeStreams.filter
    (fun s => startsChars nameStart.toList s.logStreamName.toList)))

/-- The cursor lookup as the code performs it end to end: a DescribeLogStreams
call filtered by `logStreamNamePrefix = LOG_STREAM_NAME` (handler.js line 86),
then `getSequenceToken` on the response. -/
def fetchCursor (storeStreams : List LogStream) : Option String :=
  getSequenceToken (describeLogStreams storeStreams LOG_STREAM_NAME)

/-- Modelled from the spec's words (section 4.2, operation 2): look up the
stream's current cursor by exact-name match on the fixed stream name. -/
def fetchCursorExact (storeStreams : List LogStream) : Option String :=
  match storeStreams.find? (fun s => s.logStreamName = LOG_STREAM_NAME) with
  | some s => s.uploadSequenceToken
  | none => none

/-- JavaScript regex whitespace class membership, for `\S`. -/
def isWS (c : Char) : Bool :=
  c = ' ' || c = '\t' || c = '\n' || c = '\r' || c = '\x0b' || c = '\x0c'

/-- The literal part of the recovery pattern in handler.js line 146. -/
def seqTokenPat : List Char := "The next expected sequenceToken is: ".toList

/-- Scan for the first position where the literal pattern is followed by at
least one non-whitespace character, and return that maximal non-whitespace
run (the capture of `(\S+)`); like the regex engine, a position where the
literal matches but `\S+` cannot is skipped and the scan continues. -/
def scanSeqToken : List Char → Option (List Char)
  | [] => none
  | c :: cs =>
    if startsChars seqTokenPat (c :: cs) then
      let tok := ((c :: cs).drop seqTokenPat.length).takeWhile (fun d => !isWS d)
      if tok.isEmpty then scanSeqToken cs else some tok
    else scanSeqToken cs

/-- `error.message.match(/The next expected sequenceToken is: (\S+)/)`
restricted to its first capture group (handler.js lines 145-147). -/
def extractSeqToken (msg : String) : Option String :=
  (scanSeqToken msg.toList).map (fun cs => String.mk cs)

/-- One element of the `logEvents` array of a PutLogEvents request. -/
structure LogEvent where
  timestamp : Nat
  message : String
  deriving Repr, DecidableEq

/-- The parameters of one PutLogEvents request as the handler builds them. -/
structure PutParams where
  logGroupName : String
  logStreamName : String
  logEvents : List LogEvent
  sequenceToken : Option String
  deriving Repr, DecidableEq

/-- Outcome that the store reports for one PutLogEvents call, discriminated
by `error.name` as the handler's catch blocks do. -/
inductive PutResult where
  | success
  | invalidSequenceToken (msg : String)
  | otherFailure (msg : String)
  deriving Repr, DecidableEq

/-- `writeToCloudWatch` (handler.js lines 103-162).  `describe` is the
store's response to the inner `getSequenceToken` call; `put1` and `put2` are
the store's outcomes for the first and (if reached) retry PutLogEvents call;
`now1`/`now2` are the two `Date.now()` readings.  Returns the boolean result
together with the trace of PutLogEvents requests issued. -/
def writeToCloudWatch (logGroupName : String) (now1 now2 : Nat) (message : String)
    (describe : DescribeResult) (put1 put2 : PutResult) : Bool × List PutParams :=
  let sequenceToken := getSequenceToken describe
  let logEvent : LogEvent := { timestamp := now1, message := message }
  let params0 : PutParams :=
    { logGroupName := logGroupName, logStreamName := LOG_STREAM_NAME,
      logEvents := [logEvent], sequenceToken := none }
  let putLogEventsParams :=
    if jsTruthyS sequenceToken then { params0 with sequenceToken := sequenceToken }
    else params0
  match put1 with
  | .success => (true, [putLogEventsParams])
  | .invalidSequenceToken msg =>
    let retry0 : PutParams :=
      { logGroupName := logGroupName, logStreamName := LOG_STREAM_NAME,
        logEvents := [{ timestamp := now2, message := message }],
        sequenceToken := none }
    let retryParams :=
      match extractSeqToken msg with
      | some tok => { retry0 with sequenceToken := some tok }
      | none => retry0
    match put2 with
    | .success => (true, [putLogEventsParams, retryParams])
    | _ => (false, [putLogEventsParams, retryParams])
  | .otherFailure _ => (false, [putLogEventsParams])

/-- One record of the Lambda event: the transport source tag and the decoded
form of `record.Sns.Message` (`none` when `JSON.parse` would throw). -/
structure SNSRecord where
  eventSource : String
  body : Option SnsMessage
  deriving Repr, DecidableEq

/-- The per-record loop of `sesEventsHandler` (handler.js lines 237-273),
returning the list of processed events handed to `writeToCloudWatch`, in
order: non-SNS records are skipped, undecodable payloads are skipped,
payloads without a truthy `eventType` or `notificationType` are skipped;
otherwise a truthy `notificationType` is copied over `eventType` and the
processed event is appended. -/
def appendCalls (now : String) : List SNSRecord → List ProcessedEvent
  | [] => []
  | record :: rest =>
    if record.eventSource = "aws:sns" then
      match record.body with
      | none => appendCalls now rest
      | some snsMessage =>
        if jsTruthyS snsMessage.eventType || jsTruthyS snsMessage.notificationType then
          let m :=
            if jsTruthyS snsMessage.notificationType then
              { snsMessage with eventType := snsMessage.notificationType }
            else snsMessage
          processSESEvent now m :: appendCalls now rest
        else appendCalls now rest
    else appendCalls now rest

/-- `sesEventsHandler` (handler.js lines 229-283): run the destination setup,
then the per-record loop; on success the Lambda returns status code 200.
Append failures only affect logging, so the observable outcome is the
status code and the trace of append calls. -/
def sesEventsHandler (groupRes streamRes : CreateResult) (now : String)
    (records : List SNSRecord) : Except String (Nat × List ProcessedEvent) :=
  (ensureLogGroupExists groupRes streamRes).bind
    (fun _ => .ok (200, appendCalls now records))

/-- Two processed events agree on every field except `rawEvent`. -/
def eqExceptRaw (a b : ProcessedEvent) : Prop :=
  a.timestamp = b.timestamp ∧ a.messageId = b.messageId ∧ a.eventType = b.eventType ∧
  a.recipient = b.recipient ∧ a.source = b.source ∧ a.subject = b.subject ∧
  a.bounceType = b.bounceType ∧ a.bounceSubType = b.bounceSubType ∧
  a.bouncedRecipients = b.bouncedRecipients ∧
  a.complaintFeedbackType = b.complaintFeedbackType ∧
  a.complainedRecipients = b.complainedRecipients ∧
  a.processingTimeMillis = b.processingTimeMillis ∧ a.smtpResponse = b.smtpResponse ∧
  a.reason = b.reason ∧ a.errorMessage = b.errorMessage ∧ a.templateName = b.templateName

/-- Two processed events agree on every field except `eventType` and
`rawEvent` (the two fields that echo the discriminator's spelling). -/
def eqExceptKindRaw (a b : ProcessedEvent) : Prop :=
  a.timestamp = b.timestamp ∧ a.messageId = b.messageId ∧
  a.recipient = b.recipient ∧ a.source = b.source ∧ a.subject = b.subject ∧
  a.bounceType = b.bounceType ∧ a.bounceSubType = b.bounceSubType ∧
  a.bouncedRecipients = b.bouncedRecipients ∧
  a.complaintFeedbackType = b.complaintFeedbackType ∧
  a.complainedRecipients = b.complainedRecipients ∧
  a.processingTimeMillis = b.processingTimeMillis ∧ a.smtpResponse = b.smtpResponse ∧
  a.reason = b.reason ∧ a.errorMessage = b.errorMessage ∧ a.templateName = b.templateName

/-- The six event kinds in their capitalized and lowercase switch-label
spellings (handler.js lines 180-216). -/
def kindSpellings : List (String × String) :=
  [("Bounce", "bounce"), ("Complaint", "complaint"), ("Delivery", "delivery"),
   ("Send", "send"), ("Reject", "reject"), ("Rendering Failure", "renderingFailure")]

section ProjectionLemmas

theorem processSESEvent_timestamp (now : String) (m : SnsMessage) :
    (processSESEvent now m).timestamp = now := by
  unfold processSESEvent addEventDetails baseRecord; split_ifs <;> rfl

theorem processSESEvent_messageId (now : String) (m : SnsMessage) :
    (processSESEvent now m).messageId =
      jsOrS (m.mail.bind (fun x => x.messageId)) "unknown" := by
  unfold processSESEvent addEventDetails baseRecord; split_ifs <;> rfl

theorem processSESEvent_eventType (now : String) (m : SnsMessage) :
    (processSESEvent now m).eventType = jsOrS m.eventType "unknown" := by
  unfold processSESEvent addEventDetails baseRecord; split_ifs <;> rfl

theorem processSESEvent_recipient (now : String) (m : SnsMessage) :
    (processSESEvent now m).recipient =
      jsOrS ((m.mail.bind (fun x => x.destination)).bind (fun d => d.head?))
        "unknown" := by
  unfold processSESEvent addEventDetails baseRecord; split_ifs <;> rfl

theorem processSESEvent_source (now : String) (m : SnsMessage) :
    (processSESEvent now m).source =
      jsOrS (m.mail.bind (fun x => x.source)) "unknown" := by
  unfold processSESEvent addEventDetails baseRecord; split_ifs <;> rfl

theorem processSESEvent_subject (now : String) (m : SnsMessage) :
    (processSESEvent now m).subject =
      jsOrS ((m.mail.bind (fun x => x.commonHeaders)).bind (fun c => c.subject))
        "unknown" := by
  unfold processSESEvent addEventDetails baseRecord; split_ifs <;> rfl

theorem processSESEvent_rawEvent (now : String) (m : SnsMessage) :
    (processSESEvent now m).rawEvent = m := by
  unfold processSESEvent addEventDetails baseRecord; split_ifs <;> rfl

theorem processSESEvent_bounceType (now : String) (m : SnsMessage) :
    (processSESEvent now m).bounceType =
      if isKind m.eventType "Bounce" "bounce" then
        some (jsOrS ((m.bounce.getD ⟨none, none, none⟩).bounceType) "unknown")
      else none := by
  unfold processSESEvent addEventDetails baseRecord; split_ifs <;> rfl

theorem processSESEvent_bounceSubType (now : String) (m : SnsMessage) :
    (processSESEvent now m).bounceSubType =
      if isKind m.eventType "Bounce" "bounce" then
        some (jsOrS ((m.bounce.getD ⟨none, none, none⟩).bounceSubType) "unknown")
      else none := by
  unfold processSESEvent addEventDetails baseRecord; split_ifs <;> rfl

theorem processSESEvent_bouncedRecipients (now : String) (m : SnsMessage) :
    (processSESEvent now m).bouncedRecipients =
      if isKind m.eventType "Bounce" "bounce" then
        some (jsOrL ((m.bounce.getD ⟨none, none, none⟩).bouncedRecipients) [])
      else none := by
  unfold processSESEvent addEventDetails baseRecord; split_ifs <;> rfl

theorem processSESEvent_complaintFeedbackType (now : String) (m : SnsMessage) :
    (processSESEvent now m).complaintFeedbackType =
      if isKind m.eventType "Complaint" "complaint" then
        some (jsOrS ((m.complaint.getD ⟨none, none⟩).complaintFeedbackType) "unknown")
      else none := by
  unfold processSESEvent addEventDetails baseRecord
  split_ifs <;> try rfl
  all_goals simp only [isKind] at *
  all_goals casesm* _ ∨ _ <;> simp_all

theorem processSESEvent_complainedRecipients (now : String) (m : SnsMessage) :
    (processSESEvent now m).complainedRecipients =
      if isKind m.eventType "Complaint" "complaint" then
        some (jsOrL ((m.complaint.getD ⟨none, none⟩).complainedRecipients) [])
      else none := by
  unfold processSESEvent addEventDetails baseRecord
  split_ifs <;> try rfl
  all_goals simp only [isKind] at *
  all_goals casesm* _ ∨ _ <;> simp_all

theorem processSESEvent_processingTimeMillis (now : String) (m : SnsMessage) :
    (processSESEvent now m).processingTimeMillis =
      if isKind m.eventType "Delivery" "delivery" then
        some (jsOrI ((m.delivery.getD ⟨none, none⟩).processingTimeMillis) 0)
      else none := by
  unfold processSESEvent addEventDetails baseRecord
  split_ifs <;> try rfl
  all_goals simp only [isKind] at *
  all_goals casesm* _ ∨ _ <;> simp_all

theorem processSESEvent_smtpResponse (now : String) (m : SnsMessage) :
    (processSESEvent now m).smtpResponse =
      if isKind m.eventType "Delivery" "delivery" then
        some (jsOrS ((m.delivery.getD ⟨none, none⟩).smtpResponse) "unknown")
      else none := by
  unfold processSESEvent addEventDetails baseRecord
  split_ifs <;> try rfl
  all_goals simp only [isKind] at *
  all_goals casesm* _ ∨ _ <;> simp_all

theorem processSESEvent_reason (now : String) (m : SnsMessage) :
    (processSESEvent now m).reason =
      if isKind m.eventType "Reject" "reject" then
        some (jsOrS ((m.reject.getD ⟨none⟩).reason) "unknown")
      else none := by
  unfold processSESEvent addEventDetails baseRecord
  split_ifs <;> try rfl
  all_goals simp only [isKind] at *
  all_goals casesm* _ ∨ _ <;> simp_all

theorem processSESEvent_errorMessage (now : String) (m : SnsMessage) :
    (processSESEvent now m).errorMessage =
      if isKind m.eventType "Rendering Failure" "renderingFailure" then
        some (jsOrS ((m.failure.getD ⟨none, none⟩).errorMessage) "unknown")
      else none := by
  unfold processSESEvent addEventDetails baseRecord
  split_ifs <;> try rfl
  all_goals simp only [isKind] at *
  all_goals casesm* _ ∨ _ <;> simp_all

theorem processSESEvent_templateName (now : String) (m : SnsMessage) :
    (processSESEvent now m).templateName =
      if isKind m.eventType "Rendering Failure" "renderingFailure" then
        some (jsOrS ((m.failure.getD ⟨none, none⟩).templateName) "unknown")
      else none := by
  unfold processSESEvent addEventDetails baseRecord
  split_ifs <;> try rfl
  all_goals simp only [isKind] at *
  all_goals casesm* _ ∨ _ <;> simp_all

end ProjectionLemmas

/-- Claim C1 as stated is false at this input: the first submit fails with a
cursor-conflict failure whose detail does not contain the fixed textual
pattern, yet the client still retries (the trace has two submits), and since
the retry succeeds `append` returns true rather than false. -/
theorem C1_counterexample :
    (writeToCloudWatch "g" 0 0 "m" (.err "e")
      (.invalidSequenceToken "token conflict") .success).1 = true ∧
    (writeToCloudWatch "g" 0 0 "m" (.err "e")
      (.invalidSequenceToken "token conflict") .success).2.length = 2 ∧
    extractSeqToken "token conflict" = none := by decide

/-- Claim C1 (amended): when the first submit fails with a cursor-conflict
failure, the client retries exactly once, rebuilding the same single-entry
batch; the retry carries the cursor extracted from the failure detail's
fixed textual pattern when the detail parses and no cursor otherwise; and
the append returns true exactly when the retry succeeds. -/
theorem C1_cursor_conflict_retry (gn : String) (n1 n2 : Nat) (message msg : String)
    (describe : DescribeResult) (put2 : PutResult) :
    (writeToCloudWatch gn n1 n2 message describe
      (.invalidSequenceToken msg) put2).2.length = 2 ∧
    ((writeToCloudWatch gn n1 n2 message describe
      (.invalidSequenceToken msg) put2).2.drop 1).map (fun p => p.sequenceToken) =
      [extractSeqToken msg] ∧
    ((writeToCloudWatch gn n1 n2 message describe
      (.invalidSequenceToken msg) put2).2.drop 1).map (fun p => p.logEvents) =
      [[{ timestamp := n2, message := message }]] ∧
    ((writeToCloudWatch gn n1 n2 message describe
      (.invalidSequenceToken msg) put2).1 = true ↔ put2 = .success) := by
  cases hx : extractSeqToken msg <;> cases put2 <;>
    simp [writeToCloudWatch, hx]

/-- Witness for C1: on the store's real conflict message embedding
`ABC123`, the retry attempt carries cursor `ABC123` and, the retry
succeeding, the append returns true. -/
theorem C1_witness :
    ((writeToCloudWatch "g" 0 1 "m" (.err "e")
      (.invalidSequenceToken
        "The given sequenceToken is invalid. The next expected sequenceToken is: ABC123")
      .success).2.drop 1).map (fun p => p.sequenceToken) = [some "ABC123"] ∧
    (writeToCloudWatch "g" 0 1 "m" (.err "e")
      (.invalidSequenceToken
        "The given sequenceToken is invalid. The next expected sequenceToken is: ABC123")
      .success).1 = true := by
  refine ⟨?_, ?_⟩
  · have h := (C1_cursor_conflict_retry "g" 0 1 "m"
      "The given sequenceToken is invalid. The next expected sequenceToken is: ABC123"
      (.err "e") .success).2.1
    rw [h]; decide
  · exact (C1_cursor_conflict_retry "g" 0 1 "m"
      "The given sequenceToken is invalid. The next expected sequenceToken is: ABC123"
      (.err "e") .success).2.2.2.mpr rfl

/-- Claim C2 as stated is false at this input: the store holds a single
stream whose name merely starts with the fixed stream name, the code's
prefix-query lookup returns that stream's cursor, while an exact-name
lookup would return absent. -/
theorem C2_counterexample :
    fetchCursor [⟨"ses-email-events-stream-old", some "TOK"⟩] = some "TOK" ∧
    fetchCursorExact [⟨"ses-email-events-stream-old", some "TOK"⟩] = none ∧
    "ses-email-events-stream-old" ≠ LOG_STREAM_NAME := by decide

/-- Claim C2 (amended): the cursor lookup is a name-prefix query for the
fixed stream name that takes the first returned stream's cursor, and
`getSequenceToken` returns absent when the lookup call fails, when the
response carries no stream list, and when the stream list is empty — a
lookup failure never propagates. -/
theorem C2_fetchCursor (storeStreams : List LogStream) (msg : String) :
    fetchCursor storeStreams =
      ((storeStreams.filter (fun s =>
        startsChars LOG_STREAM_NAME.toList s.logStreamName.toList)).head?).bind
        (fun s => s.uploadSequenceToken) ∧
    getSequenceToken (.err msg) = none ∧
    getSequenceToken (.ok (some [])) = none ∧
    getSequenceToken (.ok none) = none ∧
    (∀ s rest, getSequenceToken (.ok (some (s :: rest))) = s.uploadSequenceToken) := by
  have hgen : ∀ l : List LogStream,
      getSequenceToken (.ok (some l)) =
        l.head?.bind (fun s => s.uploadSequenceToken) := by
    intro l; cases l <;> rfl
  exact ⟨hgen _, rfl, rfl, rfl, fun s rest => rfl⟩

/-- Claim C3 as stated is false at this input: the records normalized from a
bounce notification with the capitalized and with the lowercase
discriminator spelling are not identical objects (their `eventType` and
`rawEvent` fields echo the spelling). -/
theorem C3_counterexample :
    processSESEvent "t" { emptyMsg with eventType := some "Bounce" } ≠
      processSESEvent "t" { emptyMsg with eventType := some "bounce" } := by decide

/-- Claim C3 (amended): for every raw notification and each of the six
supported event kinds, the capitalized and the lowercase spelling of the
discriminator map to the same handling branch: `normalize` produces records
identical in every field except `eventType` and `rawEvent`, which echo the
discriminator's original spelling. -/
theorem C3_kind_spelling (now : String) (m : SnsMessage) (cap low : String)
    (h : (cap, low) ∈ kindSpellings) :
    eqExceptKindRaw (processSESEvent now { m with eventType := some cap })
      (processSESEvent now { m with eventType := some low }) := by
  simp [kindSpellings] at h
  rcases h with ⟨rfl, rfl⟩ | ⟨rfl, rfl⟩ | ⟨rfl, rfl⟩ | ⟨rfl, rfl⟩ | ⟨rfl, rfl⟩ | ⟨rfl, rfl⟩ <;>
    simp [eqExceptKindRaw, isKind, processSESEvent_timestamp, processSESEvent_messageId,
      processSESEvent_recipient, processSESEvent_source, processSESEvent_subject,
      processSESEvent_bounceType, processSESEvent_bounceSubType,
      processSESEvent_bouncedRecipients, processSESEvent_complaintFeedbackType,
      processSESEvent_complainedRecipients, processSESEvent_processingTimeMillis,
      processSESEvent_smtpResponse, processSESEvent_reason, processSESEvent_errorMessage,
      processSESEvent_templateName]

/-- Witness for C3 (amended) at the bounce kind on a concrete notification. -/
theorem C3_witness :
    ("Bounce", "bounce") ∈ kindSpellings ∧
    eqExceptKindRaw (processSESEvent "t" { emptyMsg with eventType := some "Bounce" })
      (processSESEvent "t" { emptyMsg with eventType := some "bounce" }) :=
  ⟨by decide, C3_kind_spelling "t" emptyMsg "Bounce" "bounce" (by decide)⟩

/-- Claim C4: `normalize` substitutes the sentinel `"unknown"` for every
base field absent from the source payload and the empty list for absent
list-typed extra fields (the delivery timing extra field defaults to 0),
so the record never has a missing field.  A field is absent when its
section is missing or when the section is present without that field
(for recipient, also when the destination list is present but empty). -/
theorem C4_defaults (now : String) (m : SnsMessage) :
    (m.mail.bind (fun x => x.messageId) = none →
      (processSESEvent now m).messageId = "unknown") ∧
    ((m.mail.bind (fun x => x.destination)).bind (fun d => d.head?) = none →
      (processSESEvent now m).recipient = "unknown") ∧
    (m.mail.bind (fun x => x.source) = none →
      (processSESEvent now m).source = "unknown") ∧
    ((m.mail.bind (fun x => x.commonHeaders)).bind (fun c => c.subject) = none →
      (processSESEvent now m).subject = "unknown") ∧
    (m.eventType = none → (processSESEvent now m).eventType = "unknown") ∧
    (isKind m.eventType "Bounce" "bounce" →
      (m.bounce.bind (fun b => b.bounceType) = none →
        (processSESEvent now m).bounceType = some "unknown") ∧
      (m.bounce.bind (fun b => b.bounceSubType) = none →
        (processSESEvent now m).bounceSubType = some "unknown") ∧
      (m.bounce.bind (fun b => b.bouncedRecipients) = none →
        (processSESEvent now m).bouncedRecipients = some [])) ∧
    (isKind m.eventType "Complaint" "complaint" →
      (m.complaint.bind (fun c => c.complaintFeedbackType) = none →
        (processSESEvent now m).complaintFeedbackType = some "unknown") ∧
      (m.complaint.bind (fun c => c.complainedRecipients) = none →
        (processSESEvent now m).complainedRecipients = some [])) ∧
    (isKind m.eventType "Delivery" "delivery" →
      (m.delivery.bind (fun d => d.processingTimeMillis) = none →
        (processSESEvent now m).processingTimeMillis = some 0) ∧
      (m.delivery.bind (fun d => d.smtpResponse) = none →
        (processSESEvent now m).smtpResponse = some "unknown")) ∧
    (isKind m.eventType "Reject" "reject" →
      (m.reject.bind (fun r => r.reason) = none →
        (processSESEvent now m).reason = some "unknown")) ∧
    (isKind m.eventType "Rendering Failure" "renderingFailure" →
      (m.failure.bind (fun f => f.errorMessage) = none →
        (processSESEvent now m).errorMessage = some "unknown") ∧
      (m.failure.bind (fun f => f.templateName) = none →
        (processSESEvent now m).templateName = some "unknown")) := by
  refine ⟨fun h => ?_, fun h => ?_, fun h => ?_, fun h => ?_, fun h => ?_,
    fun hk => ⟨fun h => ?_, fun h => ?_, fun h => ?_⟩,
    fun hk => ⟨fun h => ?_, fun h => ?_⟩,
    fun hk => ⟨fun h => ?_, fun h => ?_⟩,
    fun hk => fun h => ?_,
    fun hk => ⟨fun h => ?_, fun h => ?_⟩⟩
  · simp [processSESEvent_messageId, h, jsOrS]
  · simp [processSESEvent_recipient, h, jsOrS]
  · simp [processSESEvent_source, h, jsOrS]
  · simp [processSESEvent_subject, h, jsOrS]
  · simp [processSESEvent_eventType, h, jsOrS]
  · cases hb : m.bounce <;> simp_all [processSESEvent_bounceType, hk, jsOrS]
  · cases hb : m.bounce <;> simp_all [processSESEvent_bounceSubType, hk, jsOrS]
  · cases hb : m.bounce <;> simp_all [processSESEvent_bouncedRecipients, hk, jsOrL]
  · cases hc : m.complaint <;>
      simp_all [processSESEvent_complaintFeedbackType, hk, jsOrS]
  · cases hc : m.complaint <;>
      simp_all [processSESEvent_complainedRecipients, hk, jsOrL]
  · cases hd : m.delivery <;>
      simp_all [processSESEvent_processingTimeMillis, hk, jsOrI]
  · cases hd : m.delivery <;> simp_all [processSESEvent_smtpResponse, hk, jsOrS]
  · cases hr : m.reject <;> simp_all [processSESEvent_reason, hk, jsOrS]
  · cases hf : m.failure <;> simp_all [processSESEvent_errorMessage, hk, jsOrS]
  · cases hf : m.failure <;> simp_all [processSESEvent_templateName, hk, jsOrS]

/-- Witness for C4 on a bounce notification whose `mail` and `bounce`
sections are present but empty: the individually absent fields default. -/
theorem C4_witness :
    ({ emptyMsg with eventType := some "Bounce", mail := some ⟨none, none, none, none⟩, bounce := some ⟨none, none, none⟩ } : SnsMessage).mail.bind (fun x => x.messageId) = none ∧
    isKind ({ emptyMsg with eventType := some "Bounce", mail := some ⟨none, none, none, none⟩, bounce := some ⟨none, none, none⟩ } : SnsMessage).eventType "Bounce" "bounce" ∧
    ({ emptyMsg with eventType := some "Bounce", mail := some ⟨none, none, none, none⟩, bounce := some ⟨none, none, none⟩ } : SnsMessage).bounce.bind (fun b => b.bouncedRecipients) = none ∧
    (processSESEvent "t" { emptyMsg with eventType := some "Bounce", mail := some ⟨none, none, none, none⟩, bounce := some ⟨none, none, none⟩ }).messageId = "unknown" ∧
    (processSESEvent "t" { emptyMsg with eventType := some "Bounce", mail := some ⟨none, none, none, none⟩, bounce := some ⟨none, none, none⟩ }).bouncedRecipients = some [] :=
  ⟨rfl, Or.inl rfl, rfl,
    (C4_defaults "t" { emptyMsg with eventType := some "Bounce", mail := some ⟨none, none, none, none⟩, bounce := some ⟨none, none, none⟩ }).1 rfl,
    ((C4_defaults "t" { emptyMsg with eventType := some "Bounce", mail := some ⟨none, none, none, none⟩, bounce := some ⟨none, none, none⟩ }).2.2.2.2.2.1 (Or.inl rfl)).2.2 rfl⟩

/-- Claim C5: destination setup attempts the container and then the stream
creation; for each step "already exists" and "access denied" are treated as
success, and any other creation failure propagates, aborting the setup. -/
theorem C5_ensureDestination (groupRes streamRes : CreateResult) :
    (ensureLogGroupExists groupRes streamRes = .ok () ↔
      (∀ msg, groupRes ≠ .otherError msg) ∧ (∀ msg, streamRes ≠ .otherError msg)) ∧
    (∀ msg, groupRes = .otherError msg →
      ensureLogGroupExists groupRes streamRes = .error msg) ∧
    (∀ msg, (∀ m2, groupRes ≠ .otherError m2) → streamRes = .otherError msg →
      ensureLogGroupExists groupRes streamRes = .error msg) := by
  cases groupRes <;> cases streamRes <;>
    simp [ensureLogGroupExists, handleCreateResult, Except.bind]

/-- Witness for C5: a non-benign stream-creation failure after a successful
group creation propagates. -/
theorem C5_witness :
    ensureLogGroupExists .created (.otherError "boom") = .error "boom" :=
  (C5_ensureDestination .created (.otherError "boom")).2.2 "boom" (by simp) rfl

/-- Claim C6: a batch with a record from another transport source, a
decodable record lacking both event-kind discriminators, and a well-formed
bounce record produces exactly one append call, for the bounce record. -/
theorem C6_single_append (now : String) (p b : SnsMessage) (src : String)
    (body : Option SnsMessage)
    (h1 : p.eventType = none) (h2 : p.notificationType = none)
    (h3 : b.eventType = some "Bounce") (h4 : b.notificationType = none)
    (h5 : src ≠ "aws:sns") :
    appendCalls now [⟨src, body⟩, ⟨"aws:sns", some p⟩, ⟨"aws:sns", some b⟩] =
      [processSESEvent now b] := by
  simp [appendCalls, h1, h2, h3, h4, h5, jsTruthyS]

/-- Witness for C6 on a concrete three-record batch. -/
theorem C6_witness :
    emptyMsg.eventType = none ∧ emptyMsg.notificationType = none ∧
    ("aws:s3" : String) ≠ "aws:sns" ∧
    appendCalls "t" [⟨"aws:s3", some emptyMsg⟩, ⟨"aws:sns", some emptyMsg⟩,
        ⟨"aws:sns", some { emptyMsg with eventType := some "Bounce" }⟩] =
      [processSESEvent "t" { emptyMsg with eventType := some "Bounce" }] :=
  ⟨rfl, rfl, by decide,
    C6_single_append "t" emptyMsg { emptyMsg with eventType := some "Bounce" }
      "aws:s3" (some emptyMsg) rfl rfl rfl rfl (by decide)⟩

/-- Claim C7: a record whose embedded payload fails to decode is skipped
without an append and without aborting the batch — the append calls are
exactly those of the same batch with the undecodable record removed,
wherever in the batch it sits. -/
theorem C7_decode_failure_skips (now : String) (pre post : List SNSRecord) :
    appendCalls now (pre ++ ⟨"aws:sns", none⟩ :: post) =
      appendCalls now (pre ++ post) := by
  induction pre with
  | nil => simp [appendCalls]
  | cons r rest ih =>
    cases r with
    | mk src body => cases body <;> by_cases hs : src = "aws:sns" <;>
        simp [appendCalls, hs, ih]

/-- Claim C8 as stated is false at this input: for a payload that arrived
with only the legacy discriminator, the rawEvent handed to the log client
is not the decoded payload verbatim — its `eventType` has been overwritten. -/
theorem C8_counterexample :
    (appendCalls "t"
        [⟨"aws:sns", some { emptyMsg with notificationType := some "Bounce" }⟩]).map
      (fun e => e.rawEvent) ≠
      [{ emptyMsg with notificationType := some "Bounce" }] := by decide

/-- Claim C8 (amended): the rawEvent of the processed record equals the
decoded payload after legacy normalization: verbatim when the payload has
no truthy legacy discriminator, and with `eventType` overwritten by
`notificationType` when it has one. -/
theorem C8_rawEvent (now : String) (m : SnsMessage)
    (h : (jsTruthyS m.eventType || jsTruthyS m.notificationType) = true) :
    (appendCalls now [⟨"aws:sns", some m⟩]).map (fun e => e.rawEvent) =
      [if jsTruthyS m.notificationType then
        { m with eventType := m.notificationType }
      else m] := by
  by_cases hn : jsTruthyS m.notificationType = true <;>
    simp_all [appendCalls, processSESEvent_rawEvent]

/-- Witness for C8 (amended) on a concrete legacy-discriminator payload. -/
theorem C8_witness :
    (jsTruthyS (some "Bounce") || jsTruthyS (none : Option String)) = true ∧
    (appendCalls "t" [⟨"aws:sns", some { emptyMsg with notificationType := some "Bounce" }⟩]).map (fun e => e.rawEvent) =
      [{ emptyMsg with notificationType := some "Bounce", eventType := some "Bounce" }] := by
  constructor
  · decide
  · have h := C8_rawEvent "t" { emptyMsg with notificationType := some "Bounce" }
      (by decide)
    rw [h]; decide

/-- Claim C9: when the decoded payload carries both discriminators, the
legacy `notificationType` overwrites `eventType` before normalization, so
the legacy field determines the event kind of the produced record. -/
theorem C9_legacy_precedence (now : String) (m : SnsMessage)
    (h1 : jsTruthyS m.eventType = true) (h2 : jsTruthyS m.notificationType = true) :
    appendCalls now [⟨"aws:sns", some m⟩] =
      [processSESEvent now { m with eventType := m.notificationType }] ∧
    (appendCalls now [⟨"aws:sns", some m⟩]).map (fun e => e.eventType) =
      [jsOrS m.notificationType "unknown"] := by
  constructor
  · simp [appendCalls, h1, h2]
  · simp [appendCalls, h1, h2, processSESEvent_eventType]

/-- Witness for C9 on a payload carrying `eventType = "Delivery"` and
`notificationType = "Bounce"`: the produced record is the bounce one. -/
theorem C9_witness :
    jsTruthyS ({ emptyMsg with eventType := some "Delivery", notificationType := some "Bounce" } : SnsMessage).eventType = true ∧
    jsTruthyS ({ emptyMsg with eventType := some "Delivery", notificationType := some "Bounce" } : SnsMessage).notificationType = true ∧
    appendCalls "t" [⟨"aws:sns", some { emptyMsg with eventType := some "Delivery", notificationType := some "Bounce" }⟩] =
      [processSESEvent "t" { emptyMsg with eventType := some "Bounce", notificationType := some "Bounce" }] :=
  ⟨rfl, rfl,
    (C9_legacy_precedence "t"
      { emptyMsg with eventType := some "Delivery", notificationType := some "Bounce" }
      rfl rfl).1⟩

/-- Claim C10 as stated is false at this input: a notification whose
`mail.source` is present as the empty string does not normalize to a record
identical to that of the same notification with the field removed — the
`rawEvent` field differs. -/
theorem C10_counterexample :
    processSESEvent "t" { emptyMsg with eventType := some "Send", mail := some ⟨none, none, some "", none⟩ } ≠
      processSESEvent "t" { emptyMsg with eventType := some "Send", mail := some ⟨none, none, none, none⟩ } := by decide

/-- Claim C10 (amended): `normalize` treats present-but-falsy source values
as absent: with a string base field present as the empty string, or
`delivery.processingTimeMillis` present as 0, the output agrees with that
of the field-removed notification on every field except `rawEvent`, which
preserves the source payload as it is. -/
theorem C10_falsy_defaults (now : String) (m : SnsMessage) (mm : Mail)
    (d : DeliveryInfo) :
    eqExceptRaw
      (processSESEvent now { m with mail := some { mm with source := some "" } })
      (processSESEvent now { m with mail := some { mm with source := none } }) ∧
    eqExceptRaw
      (processSESEvent now { m with mail := some { mm with messageId := some "" } })
      (processSESEvent now { m with mail := some { mm with messageId := none } }) ∧
    eqExceptRaw
      (processSESEvent now
        { m with mail := some { mm with commonHeaders := some ⟨some ""⟩ } })
      (processSESEvent now
        { m with mail := some { mm with commonHeaders := some ⟨none⟩ } }) ∧
    eqExceptRaw
      (processSESEvent now
        { m with delivery := some { d with processingTimeMillis := some 0 } })
      (processSESEvent now
        { m with delivery := some { d with processingTimeMillis := none } }) := by
  refine ⟨?_, ?_, ?_, ?_⟩ <;>
    simp [eqExceptRaw, processSESEvent_timestamp, processSESEvent_messageId,
      processSESEvent_eventType, processSESEvent_recipient, processSESEvent_source,
      processSESEvent_subject, processSESEvent_bounceType, processSESEvent_bounceSubType,
      processSESEvent_bouncedRecipients, processSESEvent_complaintFeedbackType,
      processSESEvent_complainedRecipients, processSESEvent_processingTimeMillis,
      processSESEvent_smtpResponse, processSESEvent_reason, processSESEvent_errorMessage,
      processSESEvent_templateName, jsOrS, jsOrI]

/-- Witness for C10 (amended) on the counterexample's concrete input. -/
theorem C10_witness :
    eqExceptRaw
      (processSESEvent "t" { emptyMsg with eventType := some "Send", mail := some ⟨none, none, some "", none⟩ })
      (processSESEvent "t" { emptyMsg with eventType := some "Send", mail := some ⟨none, none, none, none⟩ }) :=
  (C10_falsy_defaults "t" { emptyMsg with eventType := some "Send" }
    ⟨none, none, none, none⟩ ⟨none, none⟩).1

end SESLog
